import Mathlib

/-!
Verification of the BigQuery rules engine
(`google/cloud/forseti/scanner/audit/bigquery_rules_engine.py`).

The engine compiles raw rule definitions into pattern-based rules, indexes
them by governed resource, walks a resource's ancestor chain to collect
applicable rules, and decides via wildcard matching and a whitelist/blacklist
mode whether an access-control entry is a violation.

External collaborators (`regular_exp`, `resource_util`, `relationship`,
`bigquery_access_controls`) are not part of the audited source; they are
modelled from the specification where noted.
-/

set_option maxRecDepth 4000

/-- One token of a compiled wildcard pattern: a literal character (the
escaping step of the compiler turns every non-`*` character into a literal
matcher) or the `*` wildcard. -/
inductive GlobToken where
  | lit (c : Char)
  | star
deriving DecidableEq, Repr

/-- A compiled wildcard pattern. -/
abbrev Pattern := List GlobToken

/-- All suffixes of a character list, longest first (the list itself down to
`[]`). -/
def allSuffixes : List Char → List (List Char)
  | [] => [[]]
  | c :: cs => (c :: cs) :: allSuffixes cs

/-- Full-string matching of a compiled wildcard pattern against a character
list: `star` matches zero or more arbitrary characters (it consumes an
arbitrary prefix, so the rest of the pattern is matched against some suffix),
`lit c` matches exactly the character `c`; both ends are anchored. -/
def matchTokens : Pattern → List Char → Bool
  | [], s => s.isEmpty
  | .lit _ :: _, [] => false
  | .lit p :: ps, c :: cs => p == c && matchTokens ps cs
  | .star :: ps, s => (allSuffixes s).any fun t => matchTokens ps t

/-- Modelled from the spec: `regular_exp.escape_and_globify` (not under the
audited source tree). "`*` anywhere in the input matches zero-or-more
arbitrary characters (including none); every other character is matched
literally, with any conflicting special characters from the target matching
syntax treated as literal via escaping. Matching is always full-string
(implicit anchors at both ends)." We represent the compiled matcher as a
token list: every non-`*` character becomes a literal token (escaped), and
`*` becomes the wildcard token. -/
def escape_and_globify (pattern_string : String) : Pattern :=
  pattern_string.data.map fun c => if c = '*' then GlobToken.star else GlobToken.lit c

/-- Modelled from the spec: `regular_exp.all_match` (not under the audited
source tree). "`all_match(mapping of Matcher→value) -> bool` returns true iff
every pair matches; an empty mapping is vacuously true." -/
def all_match (regex_to_val : List (Pattern × String)) : Bool :=
  regex_to_val.all fun pv => matchTokens pv.1 pv.2.data

/-- Upper-casing of a raw string, as Python `str.upper()` on the rule's
`role` field (ASCII behaviour). -/
def pyUpper (s : String) : String :=
  { data := s.data.map Char.toUpper }

/-- Rule modes (`class Mode(enum.Enum)`). -/
inductive Mode where
  | WHITELIST
  | BLACKLIST
deriving DecidableEq, Repr

/-- `Mode(def_mode)`: the enum constructor accepts exactly the two member
values and raises `ValueError` on anything else. -/
def Mode.ofString (s : String) : Except String Mode :=
  if s = "whitelist" then .ok .WHITELIST
  else if s = "blacklist" then .ok .BLACKLIST
  else .error s

/-- Modelled from the spec: the access-control record type
`bigquery_access_controls.BigqueryAccessControls` (not under the audited
source tree); "dataset_id, role, special_group, user_email, domain,
group_email, a view descriptor, and a raw serialized form, all strings unless
noted". The source uses the same record both for entries (field type
`String`) and, inside a rule, for the compiled per-field patterns (field type
`Pattern`), so the six matched fields are parameterized. `json` is the raw
serialized form exposed by the record. -/
structure BigqueryAccessControls (α : Type) where
  project_id : String
  dataset_id : α
  full_name : String
  special_group : α
  user_email : α
  domain : α
  group_email : α
  role : α
  view : String
  json : String
deriving DecidableEq, Repr

/-- An access-control entry to be checked against policy. -/
abbrev Entry := BigqueryAccessControls String

/-- `RuleReference = namedtuple('RuleReference', ['bigquery_acl', 'mode'])`. -/
structure RuleReference where
  bigquery_acl : BigqueryAccessControls Pattern
  mode : Mode
deriving DecidableEq, Repr

/-- Modelled from the spec: `resource_mod.ResourceType.BIGQUERY` (not under
the audited source tree), the fixed resource-type tag carried by emitted
violations. -/
def ResourceType.BIGQUERY : String := "bigquery"

/-- `Rule.RuleViolation` named tuple: resource type/id, full resource name,
rule name/index, the fixed violation-type tag, and every evaluated field of
the access-control entry. -/
structure RuleViolation where
  resource_type : String
  resource_id : String
  full_name : String
  rule_name : Option String
  rule_index : Nat
  violation_type : String
  dataset_id : String
  role : String
  special_group : String
  user_email : String
  domain : String
  group_email : String
  view : String
  resource_data : String
deriving DecidableEq, Repr

/-- `class Rule`: rule properties from the rule definition file. -/
structure Rule where
  rule_name : Option String
  rule_index : Nat
  rules : RuleReference
deriving DecidableEq, Repr

/-- `Rule._is_applicable`: the pre-filter comparing the compiled `dataset_id`
and `role` patterns against the entry's values. -/
def Rule._is_applicable (r : Rule) (bigquery_acl : Entry) : Bool :=
  let rule_bigquery_acl := r.rules.bigquery_acl
  all_match
    [(rule_bigquery_acl.dataset_id, bigquery_acl.dataset_id),
     (rule_bigquery_acl.role, bigquery_acl.role)]

/-- The `all_matched` value of `Rule.find_policy_violations`: `all_match`
over the four pairs (special_group, user_email, domain, group_email). -/
def Rule.all_matched (r : Rule) (bigquery_acl : Entry) : Bool :=
  let rule_bigquery_acl := r.rules.bigquery_acl
  all_match
    [(rule_bigquery_acl.special_group, bigquery_acl.special_group),
     (rule_bigquery_acl.user_email, bigquery_acl.user_email),
     (rule_bigquery_acl.domain, bigquery_acl.domain),
     (rule_bigquery_acl.group_email, bigquery_acl.group_email)]

/-- The `has_violation` value of `Rule.find_policy_violations`:
`mode == BLACKLIST and all_matched or (mode == WHITELIST and not
all_matched)`. -/
def Rule.has_violation (r : Rule) (bigquery_acl : Entry) : Bool :=
  (r.rules.mode == Mode.BLACKLIST && r.all_matched bigquery_acl) ||
    (r.rules.mode == Mode.WHITELIST && !(r.all_matched bigquery_acl))

/-- The `RuleViolation` record yielded by `Rule.find_policy_violations`. -/
def Rule.mkViolation (r : Rule) (bigquery_acl : Entry) : RuleViolation :=
  { resource_type := ResourceType.BIGQUERY
    resource_id := bigquery_acl.dataset_id
    full_name := bigquery_acl.full_name
    rule_name := r.rule_name
    rule_index := r.rule_index
    violation_type := "BIGQUERY_VIOLATION"
    dataset_id := bigquery_acl.dataset_id
    role := bigquery_acl.role
    special_group := bigquery_acl.special_group
    user_email := bigquery_acl.user_email
    domain := bigquery_acl.domain
    group_email := bigquery_acl.group_email
    view := bigquery_acl.view
    resource_data := bigquery_acl.json }

/-- `Rule.find_policy_violations`: a generator yielding at most one
violation, rendered as a list. If the rule is not applicable it yields
nothing; otherwise it yields the violation record exactly when
`has_violation` holds. -/
def Rule.find_policy_violations (r : Rule) (bigquery_acl : Entry) : List RuleViolation :=
  if !(r._is_applicable bigquery_acl) then []
  else if r.has_violation bigquery_acl then [r.mkViolation bigquery_acl]
  else []

example : matchTokens (escape_and_globify "*") "a.^$b".data = true := by decide
example : matchTokens (escape_and_globify "ab*cd") "abXYcd".data = true := by decide
example : matchTokens (escape_and_globify "ab") "abc".data = false := by decide
example : matchTokens (escape_and_globify "") "".data = true := by decide

/-- One entry of a rule definition's `resource` list: a raw dict with a
`type` key and a `resource_ids` key, either possibly missing. -/
structure RawResource where
  type : Option String
  resource_ids : Option (List String)
deriving DecidableEq, Repr

/-- A raw rule definition dict. Every field is read with `.get`, so each is
optional; `_build_rule` substitutes the documented defaults. -/
structure RuleDef where
  name : Option String
  mode : Option String
  resource : List RawResource
  dataset_id : Option String
  special_group : Option String
  user_email : Option String
  domain : Option String
  group_email : Option String
  role : Option String
deriving DecidableEq, Repr

/-- The rule definitions dictionary: `rule_defs.get('rules', [])`. -/
structure RuleDefs where
  rules : List RuleDef
deriving DecidableEq, Repr

/-- `json.dumps(raw_resource)`: the raw serialized form stored in the rule's
`raw_json` field (not consulted by any matching logic). -/
def jsonDumps (raw_resource : RawResource) : String :=
  let ty := match raw_resource.type with
    | none => "null"
    | some t => "\"" ++ t ++ "\""
  let ids := match raw_resource.resource_ids with
    | none => "null"
    | some l => "[" ++ String.intercalate ", " (l.map fun s => "\"" ++ s ++ "\"") ++ "]"
  "\x7b\"type\": " ++ ty ++ ", \"resource_ids\": " ++ ids ++ "\x7d"

/-- Modelled from the spec: `resource_util.create_resource` (not under the
audited source tree) "canonicalizes a raw id/type pair into the key used by
the Rule Book index"; the canonical resource identity is the id/type pair
compared by value. -/
structure Resource where
  resource_id : String
  resource_type : Option String
deriving DecidableEq, Repr

/-- Modelled from the spec: canonicalization of a raw id/type pair. -/
def create_resource (resource_id : String) (resource_type : Option String) : Resource :=
  { resource_id := resource_id, resource_type := resource_type }

/-- The rule book's index, `self.resource_rules_map`, a
`collections.defaultdict(list)` rendered as an insertion-ordered association
list. -/
abbrev RulesMap := List (Resource × List Rule)

/-- Python `dict.get(key)`: non-inserting lookup; returns `none` when the
key has no entry and never changes the dictionary. -/
def dict_get (m : RulesMap) (r : Resource) : Option (List Rule) :=
  match m.find? fun p => decide (p.1 = r) with
  | some p => some p.2
  | none => none

/-- `self.resource_rules_map[resource].append(rule)` on a
`defaultdict(list)`: `__getitem__` creates an empty list for an absent key
(appending the key in insertion order) and the rule is appended to the
key's list. -/
def defaultdict_append (m : RulesMap) (r : Resource) (rule : Rule) : RulesMap :=
  match m with
  | [] => [(r, [rule])]
  | (k, v) :: rest =>
      if k = r then (k, v ++ [rule]) :: rest
      else (k, v) :: defaultdict_append rest r rule

/-- `class BigqueryRuleBook`: the rule book for BigQuery dataset resources,
holding the raw definitions and the resource-to-rules index. -/
structure BigqueryRuleBook where
  resource_rules_map : RulesMap
  rule_defs : RuleDefs
deriving DecidableEq, Repr

/-- `BigqueryRuleBook._build_rule`: reads the six field patterns (default
`"*"`), resolves the mode (falsy mode defaults to `BLACKLIST`; a truthy
unrecognized mode string raises `ValueError`, rendered as `Except.error`),
compiles each pattern — the `role` field from its upper-cased string — and
assembles the `Rule`. -/
def BigqueryRuleBook._build_rule (rule_def : RuleDef) (rule_index : Nat)
    (raw_resource : RawResource) : Except String Rule :=
  let dataset_id := rule_def.dataset_id.getD "*"
  let special_group := rule_def.special_group.getD "*"
  let user_email := rule_def.user_email.getD "*"
  let domain := rule_def.domain.getD "*"
  let group_email := rule_def.group_email.getD "*"
  let role := rule_def.role.getD "*"
  let modeE : Except String Mode :=
    match rule_def.mode with
    | some s => if s = "" then Except.ok Mode.BLACKLIST else Mode.ofString s
    | none => Except.ok Mode.BLACKLIST
  match modeE with
  | .error e => .error e
  | .ok mode =>
      .ok
        { rule_name := rule_def.name
          rule_index := rule_index
          rules :=
            { bigquery_acl :=
                { project_id := ""
                  dataset_id := escape_and_globify dataset_id
                  full_name := ""
                  special_group := escape_and_globify special_group
                  user_email := escape_and_globify user_email
                  domain := escape_and_globify domain
                  group_email := escape_and_globify group_email
                  role := escape_and_globify (pyUpper role)
                  view := "\x7b\x7d"
                  json := jsonDumps raw_resource }
              mode := mode } }

/-- The loop body of `BigqueryRuleBook.add_rule` over the definition's
`resource` list, acting on the mutable index: each entry is validated
(`resource_ids` missing or shorter than one element raises
`InvalidRulesSchemaError`), the rule is built (which may itself raise), and
the rule is appended under each listed identifier. A raise aborts the loop,
leaving the mutations already performed in place. -/
def addRuleResources (rule_def : RuleDef) (rule_index : Nat) (m : RulesMap) :
    List RawResource → RulesMap × Option String
  | [] => (m, none)
  | raw_resource :: rest =>
      let idsOk : Option (List String) :=
        match raw_resource.resource_ids with
        | none => none
        | some ids => if ids.length < 1 then none else some ids
      match idsOk with
      | none => (m, some ("Missing resource ids in rule " ++ toString rule_index))
      | some resource_ids =>
          match BigqueryRuleBook._build_rule rule_def rule_index raw_resource with
          | .error e => (m, some e)
          | .ok rule =>
              addRuleResources rule_def rule_index
                (resource_ids.foldl
                  (fun m2 rid =>
                    defaultdict_append m2 (create_resource rid raw_resource.type) rule)
                  m)
                rest

/-- `BigqueryRuleBook.add_rule`: returns the book with the (possibly
partially) updated index and the raised error, if any. -/
def BigqueryRuleBook.add_rule (book : BigqueryRuleBook) (rule_def : RuleDef)
    (rule_index : Nat) : BigqueryRuleBook × Option String :=
  let (m, err) := addRuleResources rule_def rule_index book.resource_rules_map rule_def.resource
  ({ book with resource_rules_map := m }, err)

/-- The loop of `BigqueryRuleBook.add_rules` over
`enumerate(rule_defs.get('rules', []))`; an error from `add_rule` propagates
and stops the loop. -/
def addRulesLoop (book : BigqueryRuleBook) :
    List (Nat × RuleDef) → BigqueryRuleBook × Option String
  | [] => (book, none)
  | (i, rd) :: rest =>
      match book.add_rule rd i with
      | (b2, some e) => (b2, some e)
      | (b2, none) => addRulesLoop b2 rest

/-- `BigqueryRuleBook.add_rules`. -/
def BigqueryRuleBook.add_rules (book : BigqueryRuleBook) (rule_defs : RuleDefs) :
    BigqueryRuleBook × Option String :=
  addRulesLoop book rule_defs.rules.enum

/-- `BigqueryRuleBook.__init__`: an absent/falsy definitions dict yields an
empty book; otherwise the definitions are stored and added. A raise from
`add_rules` propagates out of the constructor, so no book object is returned
to the caller in that case (the partially built object is discarded). -/
def BigqueryRuleBook.construct (rule_defs : Option RuleDefs) :
    BigqueryRuleBook × Option String :=
  match rule_defs with
  | none => ({ resource_rules_map := [], rule_defs := { rules := [] } }, none)
  | some rds =>
      BigqueryRuleBook.add_rules { resource_rules_map := [], rule_defs := rds } rds

/-- The nested loop of `BigqueryRuleBook.find_policy_violations`: for each
ancestor, the rules under `self.resource_rules_map.get(res, [])` are chained
onto the accumulated violations in list order. -/
def rulebookLoop (m : RulesMap) (bq_acl : Entry) (acc : List RuleViolation) :
    List Resource → List RuleViolation
  | [] => acc
  | res :: rest =>
      rulebookLoop m bq_acl
        (((dict_get m res).getD []).foldl
          (fun vs rule => vs ++ rule.find_policy_violations bq_acl) acc)
        rest

/-- `BigqueryRuleBook.find_policy_violations`: the ancestor chain of the
queried resource is supplied by the external hierarchy resolver
(`relationship.find_ancestors`, closest-first, self-inclusive — modelled
from the spec as an input). Returns the chained violations together with the
index after the query (lookups use `dict.get`, which never inserts). -/
def BigqueryRuleBook.find_policy_violations (book : BigqueryRuleBook)
    (resource_ancestors : List Resource) (bq_acl : Entry) :
    List RuleViolation × RulesMap :=
  (rulebookLoop book.resource_rules_map bq_acl [] resource_ancestors,
   book.resource_rules_map)

/-- `class BigqueryRulesEngine`: holds the rules-file contents (the result
of `_load_rule_definitions`, modelled from the spec as pre-loaded data) and
the installed rule book (`None` when unbuilt). -/
structure BigqueryRulesEngine where
  rule_file_contents : Option RuleDefs
  rule_book : Option BigqueryRuleBook
deriving DecidableEq, Repr

/-- `BigqueryRulesEngine.build_rule_book`:
`self.rule_book = BigqueryRuleBook(self._load_rule_definitions())`. A raise
from the constructor propagates before the assignment, leaving the previously
installed book in place. -/
def BigqueryRulesEngine.build_rule_book (e : BigqueryRulesEngine) :
    BigqueryRulesEngine × Option String :=
  match BigqueryRuleBook.construct e.rule_file_contents with
  | (book, none) => ({ e with rule_book := some book }, none)
  | (_, some err) => (e, some err)

/-- `BigqueryRulesEngine.find_policy_violations`: rebuilds the book when
unbuilt or `force_rebuild` is set, then delegates to the installed book.
Returns the engine state after the call, the raised error (if a rebuild
failed), and the violations. -/
def BigqueryRulesEngine.find_policy_violations (e : BigqueryRulesEngine)
    (parent_ancestors : List Resource) (bq_acl : Entry) (force_rebuild : Bool) :
    BigqueryRulesEngine × Option String × List RuleViolation :=
  let built :=
    if e.rule_book.isNone || force_rebuild then e.build_rule_book else (e, none)
  match built with
  | (e1, some err) => (e1, some err, [])
  | (e1, none) =>
      match e1.rule_book with
      | some book => (e1, none, (book.find_policy_violations parent_ancestors bq_acl).1)
      | none => (e1, none, [])

/-! ### Pattern-matcher lemmas -/

lemma mem_allSuffixes (t s : List Char) : t ∈ allSuffixes s ↔ ∃ a, a ++ t = s := by
  induction s with
  | nil =>
      simp only [allSuffixes, List.mem_singleton]
      constructor
      · rintro rfl; exact ⟨[], rfl⟩
      · rintro ⟨a, ha⟩
        exact (List.append_eq_nil.mp ha).2
  | cons c cs ih =>
      simp only [allSuffixes, List.mem_cons, ih]
      constructor
      · rintro (rfl | ⟨a, rfl⟩)
        · exact ⟨[], rfl⟩
        · exact ⟨c :: a, rfl⟩
      · rintro ⟨a, ha⟩
        cases a with
        | nil => left; simpa using ha
        | cons x xs =>
            right
            rw [List.cons_append] at ha
            injection ha with h1 h2
            exact ⟨xs, h2⟩

lemma matchTokens_star_iff (ps : Pattern) (s : List Char) :
    matchTokens (.star :: ps) s = true ↔ ∃ a b, a ++ b = s ∧ matchTokens ps b = true := by
  simp only [matchTokens, List.any_eq_true]
  constructor
  · rintro ⟨t, ht, hm⟩
    rcases (mem_allSuffixes t s).mp ht with ⟨a, ha⟩
    exact ⟨a, t, ha, hm⟩
  · rintro ⟨a, b, hab, hm⟩
    exact ⟨b, (mem_allSuffixes b s).mpr ⟨a, hab⟩, hm⟩

lemma matchTokens_lits_iff (l s : List Char) :
    matchTokens (l.map GlobToken.lit) s = true ↔ s = l := by
  induction l generalizing s with
  | nil =>
      cases s <;> simp [matchTokens, List.isEmpty]
  | cons c cs ih =>
      cases s with
      | nil => simp [matchTokens]
      | cons x xs =>
          simp only [List.map_cons, matchTokens, Bool.and_eq_true, beq_iff_eq, ih,
            List.cons.injEq]
          constructor
          · rintro ⟨rfl, rfl⟩; exact ⟨rfl, rfl⟩
          · rintro ⟨rfl, rfl⟩; exact ⟨rfl, rfl⟩

lemma escape_and_globify_star : escape_and_globify "*" = [GlobToken.star] := by
  decide

lemma escape_and_globify_no_star (p : String) (h : ∀ c ∈ p.data, c ≠ '*') :
    escape_and_globify p = p.data.map GlobToken.lit := by
  unfold escape_and_globify
  apply List.map_congr_left
  intro c hc
  simp [h c hc]


/-! ### Concrete fixtures used by witnesses and sanity checks -/

def sampleRawResource : RawResource :=
  { type := some "project", resource_ids := some ["proj-1"] }

def blacklistDef : RuleDef :=
  { name := some "bq-rule", mode := some "blacklist", resource := [sampleRawResource],
    dataset_id := none, special_group := none, user_email := none,
    domain := some "external.com", group_email := none, role := some "OWNER" }

def sampleBlacklistRule : Rule :=
  { rule_name := some "bq-rule"
    rule_index := 0
    rules :=
      { bigquery_acl :=
          { project_id := ""
            dataset_id := escape_and_globify "*"
            full_name := ""
            special_group := escape_and_globify "*"
            user_email := escape_and_globify "*"
            domain := escape_and_globify "external.com"
            group_email := escape_and_globify "*"
            role := escape_and_globify (pyUpper "OWNER")
            view := "\x7b\x7d"
            json := jsonDumps sampleRawResource }
        mode := Mode.BLACKLIST } }

def sampleWhitelistRule : Rule :=
  { sampleBlacklistRule with
      rules := { sampleBlacklistRule.rules with mode := Mode.WHITELIST } }

def sampleEntry : Entry :=
  { project_id := "proj-1", dataset_id := "ds1",
    full_name := "project/proj-1/dataset/ds1/",
    special_group := "", user_email := "alice@corp.com", domain := "external.com",
    group_email := "", role := "OWNER", view := "", json := "acl-json" }

example : BigqueryRuleBook._build_rule blacklistDef 0 sampleRawResource =
    Except.ok sampleBlacklistRule := by rfl

example : (sampleBlacklistRule.find_policy_violations sampleEntry).length = 1 := by decide

example : (sampleBlacklistRule.find_policy_violations
    { sampleEntry with domain := "internal.com" }).length = 0 := by decide

/-! ### Claim theorems: pattern compiler -/

/-- Claim C5: the compiled wildcard pattern matches full-string with `*` matching
zero-or-more arbitrary characters: the pattern `"*"` matches every string
(including the empty string and strings with regex-special characters), a
pattern without `*` matches exactly itself, and a leading `*` token matches
precisely the strings some suffix of which is matched by the rest of the
pattern. -/
theorem wildcard_matching_correct :
    (∀ s : String, matchTokens (escape_and_globify "*") s.data = true) ∧
    (∀ p s : String, (∀ c ∈ p.data, c ≠ '*') →
      (matchTokens (escape_and_globify p) s.data = true ↔ s = p)) ∧
    (∀ (ps : Pattern) (s : List Char),
      matchTokens (GlobToken.star :: ps) s = true ↔
        ∃ a b, a ++ b = s ∧ matchTokens ps b = true) := by
  refine ⟨?_, ?_, matchTokens_star_iff⟩
  · intro s
    rw [escape_and_globify_star, matchTokens_star_iff]
    exact ⟨s.data, [], by simp, rfl⟩
  · intro p s h
    rw [escape_and_globify_no_star p h, matchTokens_lits_iff]
    constructor
    · intro hd
      cases s; cases p
      exact congrArg String.mk hd
    · rintro rfl; rfl

/-- Witness for C5 at concrete inputs: `"*"` matches a string made of
regex-special characters, and the star-free pattern `"abc"` matches itself. -/
theorem wildcard_matching_correct_witness :
    matchTokens (escape_and_globify "*") ".*^$[".data = true ∧
    (matchTokens (escape_and_globify "abc") "abc".data = true ↔ ("abc" : String) = "abc") :=
  ⟨wildcard_matching_correct.1 ".*^$[",
   wildcard_matching_correct.2.1 "abc" "abc" (by decide)⟩

/-! ### Claim theorems: rule decision logic -/

/-- Claim C2: the applicability check is exactly the conjunction of the
dataset_id-pattern match and the role-pattern match, and a non-applicable
entry yields no violation regardless of mode or other fields. -/
theorem applicability_prefilter (r : Rule) (acl : Entry) :
    (r._is_applicable acl =
      (matchTokens r.rules.bigquery_acl.dataset_id acl.dataset_id.data &&
        matchTokens r.rules.bigquery_acl.role acl.role.data)) ∧
    (r._is_applicable acl = false → r.find_policy_violations acl = []) := by
  constructor
  · simp [Rule._is_applicable, all_match]
  · intro h
    simp [Rule.find_policy_violations, h]

/-- Witness for C2: a rule whose role pattern does not match the entry's
role produces no violation. -/
theorem applicability_prefilter_witness :
    sampleBlacklistRule.find_policy_violations { sampleEntry with role := "owner" } = [] :=
  (applicability_prefilter sampleBlacklistRule { sampleEntry with role := "owner" }).2
    (by decide)

/-- Claim C1: on an applicable entry, a BLACKLIST rule flags a violation iff
`all_matched` (the `all_match` over the four pairs special_group, user_email,
domain, group_email) is true, a WHITELIST rule iff it is false, and two rules
with identical field patterns and opposite modes produce complementary
decisions. -/
theorem mode_decision_complementary (rb rwl : Rule) (acl : Entry)
    (happ : rb._is_applicable acl = true) :
    (rb.rules.mode = Mode.BLACKLIST →
      (((rb.find_policy_violations acl).isEmpty = false) ↔ rb.all_matched acl = true)) ∧
    (rb.rules.mode = Mode.WHITELIST →
      (((rb.find_policy_violations acl).isEmpty = false) ↔ rb.all_matched acl = false)) ∧
    (rwl.rules.bigquery_acl = rb.rules.bigquery_acl → rb.rules.mode = Mode.BLACKLIST →
      rwl.rules.mode = Mode.WHITELIST →
      (rb.find_policy_violations acl).isEmpty = !((rwl.find_policy_violations acl).isEmpty)) := by
  have hfind : ∀ (r : Rule), r._is_applicable acl = true →
      r.find_policy_violations acl =
        if r.has_violation acl then [r.mkViolation acl] else [] := by
    intro r h
    simp [Rule.find_policy_violations, h]
  refine ⟨?_, ?_, ?_⟩
  · intro hb
    rw [hfind rb happ]
    cases h : rb.all_matched acl <;>
      simp [Rule.has_violation, hb, h]
  · intro hw
    rw [hfind rb happ]
    cases h : rb.all_matched acl <;>
      simp [Rule.has_violation, hw, h]
  · intro hpat hb hw
    have happ' : rwl._is_applicable acl = true := by
      simpa [Rule._is_applicable, hpat] using happ
    have hmatch : rwl.all_matched acl = rb.all_matched acl := by
      simp [Rule.all_matched, hpat]
    rw [hfind rb happ, hfind rwl happ']
    cases h : rb.all_matched acl <;>
      simp [Rule.has_violation, hb, hw, h, hmatch]

/-- Witness for C1: the sample blacklist/whitelist pair with identical
patterns decides complementarily on the sample entry. -/
theorem mode_decision_complementary_witness :
    (sampleBlacklistRule.find_policy_violations sampleEntry).isEmpty =
      !((sampleWhitelistRule.find_policy_violations sampleEntry).isEmpty) :=
  (mode_decision_complementary sampleBlacklistRule sampleWhitelistRule sampleEntry
      (by decide)).2.2 (by decide) (by decide) (by decide)

/-- Claim C6: on an applicable entry the rule decides is a violation, exactly one
violation record is yielded, tagged `BIGQUERY_VIOLATION`, carrying the rule's
name and index, with `resource_id` equal to the entry's `dataset_id` (not the
governing resource identifier) and the remaining fields copied from the
entry. -/
theorem violation_record_fields (r : Rule) (acl : Entry)
    (happ : r._is_applicable acl = true) (hdec : r.has_violation acl = true) :
    r.find_policy_violations acl =
      [{ resource_type := ResourceType.BIGQUERY
         resource_id := acl.dataset_id
         full_name := acl.full_name
         rule_name := r.rule_name
         rule_index := r.rule_index
         violation_type := "BIGQUERY_VIOLATION"
         dataset_id := acl.dataset_id
         role := acl.role
         special_group := acl.special_group
         user_email := acl.user_email
         domain := acl.domain
         group_email := acl.group_email
         view := acl.view
         resource_data := acl.json }] := by
  simp [Rule.find_policy_violations, happ, hdec, Rule.mkViolation]

/-- Witness for C6: the sample blacklist rule yields exactly one violation
record on the sample entry. -/
theorem violation_record_fields_witness :
    (sampleBlacklistRule.find_policy_violations sampleEntry).length = 1 := by
  rw [violation_record_fields sampleBlacklistRule sampleEntry (by decide) (by decide)]
  rfl

/-! ### Claim theorems: rule building -/

lemma build_rule_ok_shape (rd : RuleDef) (i : Nat) (rr : RawResource) (r : Rule)
    (h : BigqueryRuleBook._build_rule rd i rr = Except.ok r) :
    ∃ mode, r =
      { rule_name := rd.name
        rule_index := i
        rules :=
          { bigquery_acl :=
              { project_id := ""
                dataset_id := escape_and_globify (rd.dataset_id.getD "*")
                full_name := ""
                special_group := escape_and_globify (rd.special_group.getD "*")
                user_email := escape_and_globify (rd.user_email.getD "*")
                domain := escape_and_globify (rd.domain.getD "*")
                group_email := escape_and_globify (rd.group_email.getD "*")
                role := escape_and_globify (pyUpper (rd.role.getD "*"))
                view := "\x7b\x7d"
                json := jsonDumps rr }
            mode := mode } } := by
  rcases hmode : rd.mode with _ | s
  · simp [BigqueryRuleBook._build_rule, hmode] at h
    exact ⟨Mode.BLACKLIST, h.symm⟩
  · by_cases hs : s = ""
    · simp [BigqueryRuleBook._build_rule, hmode, hs] at h
      exact ⟨Mode.BLACKLIST, h.symm⟩
    · by_cases hw : s = "whitelist"
      · simp [BigqueryRuleBook._build_rule, Mode.ofString, hmode, hs, hw] at h
        exact ⟨Mode.WHITELIST, h.symm⟩
      · by_cases hb : s = "blacklist"
        · simp [BigqueryRuleBook._build_rule, Mode.ofString, hmode, hs, hw, hb] at h
          exact ⟨Mode.BLACKLIST, h.symm⟩
        · simp [BigqueryRuleBook._build_rule, Mode.ofString, hmode, hs, hw, hb] at h

/-- Claim C7: a successfully built rule's role pattern is compiled from the
upper-cased raw role string while the other five field patterns are compiled
from their raw strings unchanged; in particular a rule with raw role
`"owner"` matches entry role `"OWNER"` but not `"owner"`. -/
theorem role_pattern_uppercased (rd : RuleDef) (i : Nat) (rr : RawResource) (r : Rule)
    (h : BigqueryRuleBook._build_rule rd i rr = Except.ok r) :
    r.rules.bigquery_acl.role = escape_and_globify (pyUpper (rd.role.getD "*")) ∧
    r.rules.bigquery_acl.dataset_id = escape_and_globify (rd.dataset_id.getD "*") ∧
    r.rules.bigquery_acl.special_group = escape_and_globify (rd.special_group.getD "*") ∧
    r.rules.bigquery_acl.user_email = escape_and_globify (rd.user_email.getD "*") ∧
    r.rules.bigquery_acl.domain = escape_and_globify (rd.domain.getD "*") ∧
    r.rules.bigquery_acl.group_email = escape_and_globify (rd.group_email.getD "*") ∧
    (rd.role = some "owner" →
      matchTokens r.rules.bigquery_acl.role "OWNER".data = true ∧
      matchTokens r.rules.bigquery_acl.role "owner".data = false) := by
  rcases build_rule_ok_shape rd i rr r h with ⟨mode, rfl⟩
  refine ⟨rfl, rfl, rfl, rfl, rfl, rfl, ?_⟩
  intro hrole
  rw [hrole]
  constructor
  · show matchTokens (escape_and_globify (pyUpper "owner")) "OWNER".data = true
    decide
  · show matchTokens (escape_and_globify (pyUpper "owner")) "owner".data = false
    decide

def lowerRoleDef : RuleDef := { blacklistDef with role := some "owner" }

def lowerRoleRule : Rule :=
  { sampleBlacklistRule with
      rules :=
        { sampleBlacklistRule.rules with
            bigquery_acl :=
              { sampleBlacklistRule.rules.bigquery_acl with
                  role := escape_and_globify (pyUpper "owner") } } }

/-- Witness for C7: the rule built from raw role `"owner"` matches entry
role `"OWNER"` and rejects entry role `"owner"`. -/
theorem role_pattern_uppercased_witness :
    matchTokens lowerRoleRule.rules.bigquery_acl.role "OWNER".data = true ∧
    matchTokens lowerRoleRule.rules.bigquery_acl.role "owner".data = false :=
  (role_pattern_uppercased lowerRoleDef 0 sampleRawResource lowerRoleRule
    (by rfl)).2.2.2.2.2.2 rfl

/-- Claim C10: a present-but-falsy mode (empty string, like an absent mode)
silently defaults to BLACKLIST instead of raising the unrecognized-mode
error; only a non-empty string outside `whitelist`/`blacklist` makes rule
building fail. -/
theorem falsy_mode_defaults_blacklist (rd : RuleDef) (i : Nat) (rr : RawResource) :
    ((rd.mode = none ∨ rd.mode = some "") →
      ∃ r, BigqueryRuleBook._build_rule rd i rr = Except.ok r ∧
        r.rules.mode = Mode.BLACKLIST) ∧
    (∀ s, rd.mode = some s → s ≠ "" → s ≠ "whitelist" → s ≠ "blacklist" →
      BigqueryRuleBook._build_rule rd i rr = Except.error s) ∧
    (∀ s, rd.mode = some s → (s = "whitelist" ∨ s = "blacklist") →
      ∃ r, BigqueryRuleBook._build_rule rd i rr = Except.ok r) := by
  refine ⟨?_, ?_, ?_⟩
  · rintro (h | h) <;> simp [BigqueryRuleBook._build_rule, h]
  · intro s hs hne hw hb
    simp [BigqueryRuleBook._build_rule, Mode.ofString, hs, hne, hw, hb]
  · rintro s hs (rfl | rfl) <;>
      simp [BigqueryRuleBook._build_rule, Mode.ofString, hs]

/-- Witness for C10: an empty-string mode builds a BLACKLIST rule; the
non-empty unrecognized mode `"greylist"` raises. -/
theorem falsy_mode_defaults_blacklist_witness :
    (∃ r, BigqueryRuleBook._build_rule { blacklistDef with mode := some "" } 0
        sampleRawResource = Except.ok r ∧ r.rules.mode = Mode.BLACKLIST) ∧
    BigqueryRuleBook._build_rule { blacklistDef with mode := some "greylist" } 0
        sampleRawResource = Except.error "greylist" :=
  ⟨(falsy_mode_defaults_blacklist { blacklistDef with mode := some "" } 0
      sampleRawResource).1 (Or.inr rfl),
   (falsy_mode_defaults_blacklist { blacklistDef with mode := some "greylist" } 0
      sampleRawResource).2.1 "greylist" rfl (by decide) (by decide) (by decide)⟩

/-! ### Claim theorems: rule book queries -/

/-- The violations one ancestor contributes: its registered rules (empty
when none) evaluated in list order. -/
def ancestorViolations (m : RulesMap) (bq_acl : Entry) (res : Resource) :
    List RuleViolation :=
  (((dict_get m res).getD []).map fun rule => rule.find_policy_violations bq_acl).flatten

lemma foldl_append_violations (f : Rule → List RuleViolation) (l : List Rule)
    (init : List RuleViolation) :
    l.foldl (fun vs rule => vs ++ f rule) init = init ++ (l.map f).flatten := by
  induction l generalizing init with
  | nil => simp
  | cons r rest ih => simp [ih, List.append_assoc]

lemma rulebookLoop_eq (m : RulesMap) (bq_acl : Entry) (acc : List RuleViolation)
    (ancestors : List Resource) :
    rulebookLoop m bq_acl acc ancestors =
      acc ++ (ancestors.map (ancestorViolations m bq_acl)).flatten := by
  induction ancestors generalizing acc with
  | nil => simp [rulebookLoop]
  | cons a rest ih =>
      rw [rulebookLoop, ih, foldl_append_violations]
      simp [ancestorViolations, List.append_assoc]

/-- Claim C3: the rule book's result is the concatenation, in the
closest-first ancestor order supplied by the hierarchy resolver, of each
ancestor's violations, with rule-list order within one ancestor; hence every
violation from a closer ancestor precedes every violation from a farther
one. -/
theorem rulebook_violations_concat (book : BigqueryRuleBook)
    (ancestors : List Resource) (bq_acl : Entry) :
    ((book.find_policy_violations ancestors bq_acl).1 =
      (ancestors.map (ancestorViolations book.resource_rules_map bq_acl)).flatten) ∧
    (∀ closer rest, ancestors = closer :: rest →
      (book.find_policy_violations ancestors bq_acl).1 =
        ancestorViolations book.resource_rules_map bq_acl closer ++
          (book.find_policy_violations rest bq_acl).1) := by
  constructor
  · simp [BigqueryRuleBook.find_policy_violations, rulebookLoop_eq]
  · rintro closer rest rfl
    simp [BigqueryRuleBook.find_policy_violations, rulebookLoop_eq]

def projResource : Resource := create_resource "proj-1" (some "project")

def orgResource : Resource := create_resource "org-1" (some "organization")

def orgRawResource : RawResource :=
  { type := some "organization", resource_ids := some ["org-1"] }

def orgDef : RuleDef :=
  { blacklistDef with name := some "org-rule", resource := [orgRawResource] }

def twoLevelDefs : RuleDefs := { rules := [blacklistDef, orgDef] }

def twoLevelBook : BigqueryRuleBook :=
  (BigqueryRuleBook.construct (some twoLevelDefs)).1

/-- Witness for C3: with rules registered on both a project and its parent
organization, the project-level violations precede the organization-level
ones. -/
theorem rulebook_violations_concat_witness :
    (twoLevelBook.find_policy_violations [projResource, orgResource] sampleEntry).1 =
      ancestorViolations twoLevelBook.resource_rules_map sampleEntry projResource ++
        (twoLevelBook.find_policy_violations [orgResource] sampleEntry).1 :=
  (rulebook_violations_concat twoLevelBook [projResource, orgResource] sampleEntry).2
    projResource [orgResource] rfl

/-- Claim C9: fully consuming a rule-book query leaves the resource-rules index
unchanged (lookups use the non-inserting `dict.get`), and querying a
resource identity with no registered rules creates no entry and yields no
violations. -/
theorem query_leaves_index_unchanged (book : BigqueryRuleBook)
    (ancestors : List Resource) (bq_acl : Entry) (r : Resource)
    (h : dict_get book.resource_rules_map r = none) :
    ((book.find_policy_violations ancestors bq_acl).2 = book.resource_rules_map) ∧
    ((book.find_policy_violations [r] bq_acl).1 = []) := by
  constructor
  · rfl
  · simp [BigqueryRuleBook.find_policy_violations, rulebookLoop_eq,
      ancestorViolations, h]

/-- Witness for C9: querying an unregistered resource on the two-level book
yields nothing and the index is unchanged. -/
theorem query_leaves_index_unchanged_witness :
    ((twoLevelBook.find_policy_violations [create_resource "other" none] sampleEntry).2 =
      twoLevelBook.resource_rules_map) ∧
    ((twoLevelBook.find_policy_violations [create_resource "other" none] sampleEntry).1 = []) :=
  query_leaves_index_unchanged twoLevelBook [create_resource "other" none] sampleEntry
    (create_resource "other" none) (by decide)

/-! ### Claim theorems: build-time error handling (C4) -/

def badRawResource : RawResource :=
  { type := some "project", resource_ids := some [] }

def partialDef : RuleDef :=
  { blacklistDef with resource := [sampleRawResource, badRawResource] }

def emptyBook : BigqueryRuleBook :=
  { resource_rules_map := [], rule_defs := { rules := [] } }

/-- Counterexample to C4 as stated: a definition whose first resource-scope
entry is valid and whose second has an empty identifier list makes
`add_rule` raise, yet the rule built from the first entry has already been
indexed — the index is not left as it was before the call. -/
theorem add_rule_not_atomic_counterexample :
    ((emptyBook.add_rule partialDef 0).2.isSome = true) ∧
    ¬((emptyBook.add_rule partialDef 0).1.resource_rules_map =
        emptyBook.resource_rules_map) := by
  decide

lemma addRuleResources_error_of_empty_ids (rd : RuleDef) (i : Nat) (m : RulesMap)
    (l : List RawResource) (h : ∃ rr ∈ l, rr.resource_ids.getD [] = []) :
    (addRuleResources rd i m l).2.isSome = true := by
  induction l generalizing m with
  | nil => simp at h
  | cons rr rest ih =>
      rcases h with ⟨rr', hmem, hids⟩
      cases hrr : rr.resource_ids with
      | none => simp [addRuleResources, hrr]
      | some ids =>
          by_cases hlen : ids.length < 1
          · simp [addRuleResources, hrr, hlen]
          · cases hbuild : BigqueryRuleBook._build_rule rd i rr with
            | error e => simp [addRuleResources, hrr, hlen, hbuild]
            | ok rule =>
                simp only [addRuleResources, hrr, hlen, hbuild, if_false]
                apply ih
                rcases List.mem_cons.mp hmem with rfl | hmem'
                · rw [hrr] at hids
                  simp at hids
                  subst hids
                  simp at hlen
                · exact ⟨rr', hmem', hids⟩

/-- Claim C4, amended: for every definition containing a resource-scope entry with
an empty or missing identifier list, `add_rule` raises a build-time error;
when the offending entry is the first one, the index is unchanged, but rules
built from valid entries processed earlier in the same definition remain
indexed (no atomic rollback). A failed build never installs a new rule book:
the engine keeps its previous one. -/
theorem add_rule_empty_ids_error (book : BigqueryRuleBook) (rd : RuleDef) (i : Nat)
    (h : ∃ rr ∈ rd.resource, rr.resource_ids.getD [] = []) :
    ((book.add_rule rd i).2.isSome = true) ∧
    (∀ rr rest, rd.resource = rr :: rest → rr.resource_ids.getD [] = [] →
      (book.add_rule rd i).1 = book) ∧
    (∀ e : BigqueryRulesEngine, (e.build_rule_book).2.isSome = true →
      (e.build_rule_book).1.rule_book = e.rule_book) := by
  refine ⟨?_, ?_, ?_⟩
  · exact addRuleResources_error_of_empty_ids rd i book.resource_rules_map
      rd.resource h
  · rintro rr rest hres hids
    unfold BigqueryRuleBook.add_rule
    rw [hres]
    cases hrr : rr.resource_ids with
    | none => simp [addRuleResources, hrr]
    | some ids =>
        rw [hrr] at hids
        simp only [Option.getD_some] at hids
        subst hids
        simp [addRuleResources, hrr]
  · intro e he
    unfold BigqueryRulesEngine.build_rule_book at he ⊢
    rcases hE : BigqueryRuleBook.construct e.rule_file_contents with ⟨bk, err⟩
    rw [hE] at he
    cases err with
    | none => exact Bool.noConfusion he
    | some er => rfl

/-- Witness for C4's amended claim: a definition whose only resource-scope
entry has an empty identifier list makes `add_rule` raise and leaves the
book unchanged. -/
theorem add_rule_empty_ids_error_witness :
    ((emptyBook.add_rule { blacklistDef with resource := [badRawResource] } 0).2.isSome
        = true) ∧
    ((emptyBook.add_rule { blacklistDef with resource := [badRawResource] } 0).1
        = emptyBook) :=
  ⟨(add_rule_empty_ids_error emptyBook
      { blacklistDef with resource := [badRawResource] } 0
      ⟨badRawResource, by decide, by decide⟩).1,
   (add_rule_empty_ids_error emptyBook
      { blacklistDef with resource := [badRawResource] } 0
      ⟨badRawResource, by decide, by decide⟩).2.1 badRawResource [] rfl (by decide)⟩

/-! ### Claim theorems: engine lifecycle (C8) -/

/-- Claim C8: the engine rebuilds the rule book iff it is unbuilt or
`force_rebuild` is set — when a book is installed and `force_rebuild` is
false, the engine state is untouched and the query is delegated to the
installed book; otherwise the engine state is exactly the outcome of a fresh
`build_rule_book` (replacing any previous book on success) and, when that
build succeeds, the query is delegated to the newly installed book. -/
theorem engine_rebuild_iff (e : BigqueryRulesEngine) (anc : List Resource)
    (acl : Entry) (force : Bool) :
    ((e.rule_book.isNone || force) = false →
      ((e.find_policy_violations anc acl force).1 = e ∧
       (e.find_policy_violations anc acl force).2.1 = none ∧
       (∀ book, e.rule_book = some book →
         (e.find_policy_violations anc acl force).2.2 =
           (book.find_policy_violations anc acl).1))) ∧
    ((e.rule_book.isNone || force) = true →
      ((e.find_policy_violations anc acl force).1 = (e.build_rule_book).1 ∧
       (e.find_policy_violations anc acl force).2.1 = (e.build_rule_book).2 ∧
       (∀ book, (e.build_rule_book).2 = none →
         (e.build_rule_book).1.rule_book = some book →
         (e.find_policy_violations anc acl force).2.2 =
           (book.find_policy_violations anc acl).1))) := by
  constructor
  · intro h
    cases hb : e.rule_book with
    | none => rw [hb] at h; simp at h
    | some book =>
        rw [hb] at h
        simp only [Option.isNone_some, Bool.false_or] at h
        have hfind : e.find_policy_violations anc acl force =
            (e, none, (book.find_policy_violations anc acl).1) := by
          unfold BigqueryRulesEngine.find_policy_violations
          simp [h, hb]
        refine ⟨by rw [hfind], by rw [hfind], ?_⟩
        intro book' hb'
        injection hb' with hbook
        rw [hfind, hbook]
  · intro h
    rcases hbuild : e.build_rule_book with ⟨e1, err⟩
    cases err with
    | some er =>
        have hfind : e.find_policy_violations anc acl force = (e1, some er, []) := by
          unfold BigqueryRulesEngine.find_policy_violations
          simp [h, hbuild]
        rw [hfind]
        exact ⟨rfl, rfl, fun book hnone _ => Option.noConfusion hnone⟩
    | none =>
        cases hb1 : e1.rule_book with
        | none =>
            have hfind : e.find_policy_violations anc acl force = (e1, none, []) := by
              unfold BigqueryRulesEngine.find_policy_violations
              simp [h, hbuild, hb1]
            rw [hfind]
            refine ⟨rfl, rfl, ?_⟩
            intro book _ hsome
            exact Option.noConfusion hsome
        | some book1 =>
            have hfind : e.find_policy_violations anc acl force =
                (e1, none, (book1.find_policy_violations anc acl).1) := by
              unfold BigqueryRulesEngine.find_policy_violations
              simp [h, hbuild, hb1]
            rw [hfind]
            refine ⟨rfl, rfl, ?_⟩
            intro book _ hsome
            injection hsome with hbook
            rw [hbook]

def builtEngine : BigqueryRulesEngine :=
  { rule_file_contents := some twoLevelDefs, rule_book := some twoLevelBook }

/-- Witness for C8: on an engine with an installed book and
`force_rebuild = false`, no rebuild occurs — the engine state is unchanged
and the result is the installed book's answer. -/
theorem engine_rebuild_iff_witness :
    (builtEngine.find_policy_violations [projResource] sampleEntry false).1 =
      builtEngine ∧
    (builtEngine.find_policy_violations [projResource] sampleEntry false).2.2 =
      (twoLevelBook.find_policy_violations [projResource] sampleEntry).1 :=
  ⟨((engine_rebuild_iff builtEngine [projResource] sampleEntry false).1 (by rfl)).1,
   ((engine_rebuild_iff builtEngine [projResource] sampleEntry false).1
      (by rfl)).2.2 twoLevelBook rfl⟩
